import Mathlib

/-!
Verification model of the weather application's core behaviour:
the city-resolution and weather-aggregation pipeline
(`src/services/weatherService.ts`, `src/hooks/useWeather.ts`) and the
favorites store (`src/contexts/FavoritesContext.tsx`).

Modelling conventions:
* TypeScript numbers that are only stored and copied (temperatures, epoch
  times, icon codes) are modelled as `Int`; no arithmetic other than the
  forecast date increment is performed on them in the modelled code.
* ISO-8601 date strings are modelled by their epoch-millisecond value:
  the source parses the string, adds 24*60*60*1000 milliseconds and
  re-serialises, which on the embedded representation is `d + 86400000`.
* A network request is modelled by a `Transport` value recording the
  provider's behaviour on this run: either a typed response or a
  transport/HTTP failure (an axios throw).
* A settled TanStack-Query query is modelled by `QueryState`: a disabled
  query has no data and no error; an enabled one reflects its fetcher's
  `Except` outcome.  (`isLoading` is identically false for a settled run
  and is not modelled.)
-/

/-- `{ Value, Unit, UnitType }` from the provider (`TemperatureValue`). -/
structure TemperatureValue where
  Value : Int
  UnitName : String
  UnitType : Int
deriving Repr, DecidableEq

/-- Metric/imperial pair (`Temperature`). -/
structure TemperatureObj where
  Metric : TemperatureValue
  Imperial : TemperatureValue
deriving Repr, DecidableEq

/-- Wind direction (`WindDirection`). -/
structure WindDirection where
  Degrees : Int
  Localized : String
  English : String
deriving Repr, DecidableEq

/-- Wind speed (`WindSpeed`). -/
structure WindSpeed where
  Metric : TemperatureValue
  Imperial : TemperatureValue
deriving Repr, DecidableEq

/-- Wind information (`Wind`). -/
structure WindObj where
  Direction : WindDirection
  Speed : WindSpeed
deriving Repr, DecidableEq

/-- Barometric pressure (`Pressure`). -/
structure PressureObj where
  Metric : TemperatureValue
  Imperial : TemperatureValue
deriving Repr, DecidableEq

/-- Visibility pair, inlined in the source's `CurrentWeather`. -/
structure VisibilityObj where
  Metric : TemperatureValue
  Imperial : TemperatureValue
deriving Repr, DecidableEq

/-- Current conditions record (`CurrentWeather` in `src/types/index.ts`). -/
structure CurrentWeather where
  LocalObservationDateTime : String
  EpochTime : Int
  WeatherText : String
  WeatherIcon : Int
  HasPrecipitation : Bool
  PrecipitationType : Option String
  IsDayTime : Bool
  Temperature : TemperatureObj
  RealFeelTemperature : TemperatureObj
  RelativeHumidity : Int
  Wind : WindObj
  Pressure : PressureObj
  UVIndex : Int
  UVIndexText : String
  Visibility : VisibilityObj
  CloudCover : Int
deriving Repr, DecidableEq

/-- Daily min/max (`DailyTemperature`). -/
structure DailyTemperature where
  Minimum : TemperatureValue
  Maximum : TemperatureValue
deriving Repr, DecidableEq

/-- Day or night half of a forecast day (`DayNightForecast`). -/
structure DayNightForecast where
  Icon : Int
  IconPhrase : String
  HasPrecipitation : Bool
  PrecipitationType : Option String
  PrecipitationIntensity : Option String
deriving Repr, DecidableEq

/-- One forecast day (`DailyForecast`); `Date` is the ISO string modelled
as epoch milliseconds. -/
structure DailyForecast where
  Date : Int
  EpochDate : Int
  Temperature : DailyTemperature
  Day : DayNightForecast
  Night : DayNightForecast
deriving Repr, DecidableEq

/-- Headline of the 5-day forecast response. -/
structure HeadlineObj where
  EffectiveDate : String
  EffectiveEpochDate : Int
  Severity : Int
  Text : String
  Category : String
deriving Repr, DecidableEq

/-- Forecast endpoint response (`ForecastResponse`). -/
structure ForecastResponse where
  Headline : HeadlineObj
  DailyForecasts : List DailyForecast
deriving Repr, DecidableEq

/-- `{ ID, LocalizedName }` nested object of a location result. -/
structure LocalizedEntity where
  ID : String
  LocalizedName : String
deriving Repr, DecidableEq

/-- Location search result (`LocationSearchResult`). -/
structure LocationSearchResult where
  Key : String
  LocalizedName : String
  Country : LocalizedEntity
  AdministrativeArea : LocalizedEntity
deriving Repr, DecidableEq

/-- Outcome of one HTTP request on this run: a typed response, or a
transport/HTTP failure (axios throws, the service maps it to a typed
error message). -/
inductive Transport (α : Type) where
  | ok (response : α)
  | fail
deriving Repr, DecidableEq

-- ============================================
-- Provider client (`src/services/weatherService.ts`)
-- ============================================

/-- `fetchWeather`: throws on empty key, maps any transport failure to
the fixed message, otherwise returns the raw array of conditions. -/
def fetchWeather (locationKey : String) (t : Transport (List CurrentWeather)) :
    Except String (List CurrentWeather) :=
  if locationKey = "" then .error "Invalid locationKey"
  else
    match t with
    | .ok data => .ok data
    | .fail => .error "Error loading weather data"

/-- JavaScript `String.prototype.trim`, modelled on the string's
character list: strip leading and trailing whitespace. -/
def jsTrim (s : String) : String :=
  String.mk (((s.data.dropWhile Char.isWhitespace).reverse.dropWhile
    Char.isWhitespace).reverse)

/-- `fetchLocationKey`: throws on a query that trims to empty, maps
transport failure to the fixed message, otherwise returns
`response.data[0]?.Key ?? null`. -/
def fetchLocationKey (city : String) (t : Transport (List LocationSearchResult)) :
    Except String (Option String) :=
  if jsTrim city = "" then .error "City name is required"
  else
    match t with
    | .ok data => .ok ((data.head?).map (fun r => r.Key))
    | .fail => .error "Error loading location key"

/-- `fetchLocationByKey`: throws on empty key, maps transport failure to
the fixed message, otherwise returns the location record. -/
def fetchLocationByKey (locationKey : String) (t : Transport LocationSearchResult) :
    Except String LocationSearchResult :=
  if locationKey = "" then .error "Location key is required"
  else
    match t with
    | .ok data => .ok data
    | .fail => .error "Error getting location by key"

/-- `fetchForecast`: throws on empty key, maps transport failure to the
fixed message, otherwise returns the forecast response. -/
def fetchForecast (locationKey : String) (t : Transport ForecastResponse) :
    Except String ForecastResponse :=
  if locationKey = "" then .error "Invalid locationKey"
  else
    match t with
    | .ok data => .ok data
    | .fail => .error "Error loading forecast data"

-- ============================================
-- TanStack-Query model
-- ============================================

/-- The externally observable part of a settled query:
`data`, `isError`, `error`. -/
structure QueryState (α : Type) where
  data : Option α
  isError : Bool
  error : Option String
deriving Repr, DecidableEq

/-- A settled query: disabled queries never ran (no data, no error);
enabled queries reflect their fetcher's outcome. -/
def runQuery {α : Type} (enabled : Bool) (fetch : Except String α) : QueryState α :=
  if enabled then
    match fetch with
    | .ok a => ⟨some a, false, none⟩
    | .error e => ⟨none, true, some e⟩
  else ⟨none, false, none⟩

/-- JavaScript `a || b` on nullable error objects: first non-null wins. -/
def jsOrElse (a b : Option String) : Option String :=
  match a with
  | some e => some e
  | none => b

/-- JavaScript `s || null` on a nullable string: the empty string is
falsy and collapses to null. -/
def jsStrOrNull (o : Option String) : Option String :=
  match o with
  | some s => if s = "" then none else some s
  | none => none

/-- The error component of a fetch outcome. -/
def errOf {α : Type} (x : Except String α) : Option String :=
  match x with
  | .error e => some e
  | .ok _ => none

-- ============================================
-- Forecast post-processing (`useWeatherByCity`, lines 179-194)
-- ============================================

/-- One padding step: `{ ...lastDay, Date: lastDay.Date + 24h }`
(note: only `Date` is advanced; `EpochDate` and all other fields are
copied unchanged from the cloned day). -/
def cloneNextDay (lastDay : DailyForecast) : DailyForecast :=
  { lastDay with Date := lastDay.Date + 86400000 }

/-- The padding loop:
`while (processedForecast.length < 5 && processedForecast.length > 0)`
append a date-advanced clone of the current last entry. -/
def padForecast (l : List DailyForecast) : List DailyForecast :=
  if h : l.length < 5 ∧ 0 < l.length then
    padForecast (l ++ [cloneNextDay (l.getLast (List.ne_nil_of_length_pos h.2))])
  else l
termination_by 5 - l.length
decreasing_by
  simp only [List.length_append, List.length_cons, List.length_nil]
  omega

/-- `DailyForecasts.slice(1)` followed by the padding loop. -/
def processForecast (days : List DailyForecast) : List DailyForecast :=
  padForecast (days.drop 1)

-- ============================================
-- Combined hook (`useWeatherByCity`)
-- ============================================

/-- Result shape of `useWeatherByCity` (`WeatherByCityResult`), minus the
`refetch` closure and the always-false-when-settled `isLoading`. -/
structure WeatherByCityResult where
  weather : Option CurrentWeather
  forecast : List DailyForecast
  locationKey : Option String
  localizedCityName : Option String
  isError : Bool
  error : Option String
deriving Repr, DecidableEq

/-- Provider behaviour for one settled pipeline run: the responses (or
transport failures) each endpoint would produce. -/
structure Provider where
  search : Transport (List LocationSearchResult)
  byKey : Transport LocationSearchResult
  current : Transport (List CurrentWeather)
  forecast : Transport ForecastResponse

/-- The search query of the pipeline (`useLocationKey`): enabled iff the
city trims non-empty. -/
def locationQueryOf (city : String) (p : Provider) : QueryState (Option String) :=
  runQuery (jsTrim city ≠ "") (fetchLocationKey city p.search)

/-- `locationQuery.data || null`: the resolved location key, with the
JavaScript collapse of an empty-string key to null. -/
def resolvedLocationKey (city : String) (p : Provider) : Option String :=
  match (locationQueryOf city p).data with
  | some (some k) => if k = "" then none else some k
  | _ => none

/-- `enabled: !!locationKey` of the localized-name query. -/
def locationInfoEnabled (city : String) (p : Provider) : Bool :=
  (resolvedLocationKey city p).isSome

/-- `enabled: !!locationKey` of the current-conditions query. -/
def currentWeatherEnabled (city : String) (p : Provider) : Bool :=
  (resolvedLocationKey city p).isSome

/-- `enabled: !!locationKey` of the forecast query. -/
def forecastEnabled (city : String) (p : Provider) : Bool :=
  (resolvedLocationKey city p).isSome

/-- The combined hook `useWeatherByCity` on a settled run: resolves the
location key, runs the three dependent queries, combines error state as
`locationQuery.isError || weatherQuery.isError || forecastQuery.isError`
(the localized-name query is not part of the error aggregation), picks
`locationQuery.error || weatherQuery.error || forecastQuery.error`, and
post-processes the forecast. -/
def useWeatherByCity (city : String) (p : Provider) : WeatherByCityResult :=
  let locationQuery := locationQueryOf city p
  let locationKey := resolvedLocationKey city p
  let keyArg := locationKey.getD ""
  let locationInfoQuery :=
    runQuery (locationInfoEnabled city p) (fetchLocationByKey keyArg p.byKey)
  let weatherQuery :=
    runQuery (currentWeatherEnabled city p) (fetchWeather keyArg p.current)
  let forecastQuery :=
    runQuery (forecastEnabled city p) (fetchForecast keyArg p.forecast)
  let isError := locationQuery.isError || weatherQuery.isError || forecastQuery.isError
  let error := jsOrElse locationQuery.error (jsOrElse weatherQuery.error forecastQuery.error)
  let processedForecast :=
    match forecastQuery.data with
    | some fr => processForecast fr.DailyForecasts
    | none => []
  { weather := (weatherQuery.data.map (fun l => l.head?)).getD none
    forecast := processedForecast
    locationKey := locationKey
    localizedCityName :=
      jsStrOrNull (locationInfoQuery.data.map (fun loc => loc.LocalizedName))
    isError := isError
    error := error }

-- ============================================
-- Favorites aggregation (`useFavoriteLocations`, lines 231-271)
-- ============================================

/-- Result entry of `useFavoriteLocations` (`FavoriteLocationResult`). -/
structure FavoriteLocationResult where
  locationKey : String
  localizedName : String
  defaultName : String
deriving Repr, DecidableEq

/-- Favorite city record (`FavoriteCity` in `src/types/index.ts`). -/
structure FavoriteCity where
  locationKey : String
  defaultName : String
deriving Repr, DecidableEq

/-- One element of the aggregation's `Promise.all`: try
`fetchLocationByKey`; on any failure the catch maps the city to a
fallback entry carrying its stored default name.
`byKeyOutcomes` records the transport behaviour per location key. -/
def favoriteLocationEntry (byKeyOutcomes : String → Transport LocationSearchResult)
    (fav : FavoriteCity) : FavoriteLocationResult :=
  match fetchLocationByKey fav.locationKey (byKeyOutcomes fav.locationKey) with
  | .ok locationData =>
      { locationKey := fav.locationKey
        localizedName := locationData.LocalizedName
        defaultName := fav.defaultName }
  | .error _ =>
      { locationKey := fav.locationKey
        localizedName := fav.defaultName
        defaultName := fav.defaultName }

/-- Observable result of `useFavoriteLocations`:
`locations = query.data || []` and `isError`. -/
structure FavoriteLocationsResult where
  locations : List FavoriteLocationResult
  isError : Bool
deriving Repr, DecidableEq

/-- `useFavoriteLocations` on a settled run: enabled iff the favorites
list is non-empty; the query function maps every favorite through its
own try/catch, so the aggregate promise itself never rejects. -/
def useFavoriteLocations (favorites : List FavoriteCity)
    (byKeyOutcomes : String → Transport LocationSearchResult) :
    FavoriteLocationsResult :=
  let query :=
    runQuery (favorites.length > 0)
      (Except.ok (favorites.map (favoriteLocationEntry byKeyOutcomes)) :
        Except String (List FavoriteLocationResult))
  { locations := query.data.getD []
    isError := query.isError }

-- ============================================
-- Favorites store (`src/contexts/FavoritesContext.tsx`)
-- ============================================

/-- `addFavorite`: rejects empty key or name, no-op when the key is
already present, otherwise appends. -/
def addFavorite (locationKey name : String) (prev : List FavoriteCity) :
    List FavoriteCity :=
  if locationKey = "" ∨ name = "" then prev
  else if prev.any (fun f => f.locationKey = locationKey) then prev
  else prev ++ [{ locationKey := locationKey, defaultName := name }]

/-- `removeFavorite`: rejects empty key, otherwise filters the key out. -/
def removeFavorite (locationKey : String) (prev : List FavoriteCity) :
    List FavoriteCity :=
  if locationKey = "" then prev
  else prev.filter (fun f => f.locationKey ≠ locationKey)

/-- `isFavorite`. -/
def isFavorite (locationKey : String) (favorites : List FavoriteCity) : Bool :=
  favorites.any (fun f => f.locationKey = locationKey)

/-- Provider-component state relevant to `setLastViewedCity`, together
with an explicit account of its durable-storage side effects:
`lastCityStored` is the value currently stored under the last-city key
and `lastCityWrites` counts the `localStorage.setItem` calls made for
that key. -/
structure AppState where
  favorites : List FavoriteCity
  lastViewedCity : Option FavoriteCity
  lastCityStored : Option FavoriteCity
  lastCityWrites : Nat
deriving Repr, DecidableEq

/-- `setLastViewedCity` (lines 205-214): rejects empty key or name,
otherwise unconditionally updates the in-memory slot and performs a
`localStorage.setItem` write of the new record. -/
def setLastViewedCity (locationKey name : String) (s : AppState) : AppState :=
  if locationKey = "" ∨ name = "" then s
  else
    { s with
      lastViewedCity := some { locationKey := locationKey, defaultName := name }
      lastCityStored := some { locationKey := locationKey, defaultName := name }
      lastCityWrites := s.lastCityWrites + 1 }

-- ============================================
-- Durable storage and `loadFavoritesFromStorage`
-- ============================================

/-- A JSON value, the possible results of `JSON.parse`. -/
inductive JsValue where
  | null
  | bool (b : Bool)
  | num (n : Int)
  | str (s : String)
  | arr (items : List JsValue)
  | obj (fields : List (String × JsValue))
deriving Repr

/-- A string sitting in `localStorage`, seen through `JSON.parse`:
the empty string (falsy on `getItem` checks, and unparsable), a
non-empty string that fails to parse, or one that parses to a value. -/
inductive StoredVal where
  | empty
  | malformed
  | val (j : JsValue)
deriving Repr

/-- JavaScript truthiness of `localStorage.getItem(k)`:
present and not the empty string. -/
def storedTruthy (o : Option StoredVal) : Bool :=
  match o with
  | some .empty => false
  | some _ => true
  | none => false

/-- `localStorage` contents as an association list. -/
def Storage := List (String × StoredVal)

/-- `localStorage.getItem`. -/
def getItem (st : Storage) (k : String) : Option StoredVal :=
  (List.find? (fun e => e.1 = k) st).map (fun e => e.2)

/-- `localStorage.removeItem`. -/
def removeItem (st : Storage) (k : String) : Storage :=
  List.filter (fun e => ¬ (e.1 = k)) st

/-- Storage key of the v2 favorites list. -/
def STORAGE_KEY : String := "weather_app_favorites_v2"

/-- Storage key of the v2 last-viewed city. -/
def LAST_CITY_KEY : String := "weather_app_last_city_v2"

/-- Legacy (v1) favorites key, deleted on detection. -/
def OLD_STORAGE_KEY : String := "weather_app_favorites"

/-- Legacy (v1) last-city key, deleted together with the legacy
favorites key. -/
def OLD_LAST_CITY_KEY : String := "weather_app_last_city"

/-- Last binding of a field in a parsed JSON object (on duplicate keys
`JSON.parse` keeps the last occurrence). -/
def jsonField (fields : List (String × JsValue)) (k : String) : Option JsValue :=
  (List.find? (fun e => e.1 = k) fields.reverse).map (fun e => e.2)

/-- `isValidFavoriteCity` (lines 117-126): a non-null object whose
`locationKey` and `defaultName` members are strings.  (JSON arrays,
scalars and `null` all fail the checks.) -/
def isValidFavoriteCity (item : JsValue) : Bool :=
  match item with
  | .obj fields =>
      (match jsonField fields "locationKey" with
        | some (.str _) => true
        | _ => false)
      &&
      (match jsonField fields "defaultName" with
        | some (.str _) => true
        | _ => false)
  | _ => false

/-- The `FavoriteCity` a valid stored item denotes; `none` when
`isValidFavoriteCity` rejects it. -/
def toFavoriteCity (item : JsValue) : Option FavoriteCity :=
  match item with
  | .obj fields =>
      match jsonField fields "locationKey", jsonField fields "defaultName" with
      | some (.str k), some (.str n) => some { locationKey := k, defaultName := n }
      | _, _ => none
  | _ => none

/-- First step of `loadFavoritesFromStorage` (lines 135-139): when the
legacy favorites key reads truthy, delete it together with the legacy
last-city key. -/
def legacyCleanup (st : Storage) : Storage :=
  if storedTruthy (getItem st OLD_STORAGE_KEY) then
    removeItem (removeItem st OLD_STORAGE_KEY) OLD_LAST_CITY_KEY
  else st

/-- `loadFavoritesFromStorage` (lines 133-153): delete detected legacy
keys, then read the v2 key; absent or empty valued, unparsable, or
non-array data yields `[]`; an array is filtered entrywise through
`isValidFavoriteCity`.  Returns the loaded list with the storage as
left after the legacy cleanup. -/
def loadFavoritesFromStorage (st : Storage) : List FavoriteCity × Storage :=
  match getItem (legacyCleanup st) STORAGE_KEY with
  | none => ([], legacyCleanup st)
  | some .empty => ([], legacyCleanup st)
  | some .malformed => ([], legacyCleanup st)
  | some (.val j) =>
      match j with
      | .arr items => (items.filterMap toFavoriteCity, legacyCleanup st)
      | _ => ([], legacyCleanup st)

-- ============================================
-- Concrete sample data for witnesses and counterexamples
-- ============================================

/-- A sample provider measurement value. -/
def sampleTempValue : TemperatureValue :=
  { Value := 18, UnitName := "C", UnitType := 17 }

/-- A sample metric/imperial pair. -/
def sampleTemp : TemperatureObj :=
  { Metric := sampleTempValue, Imperial := sampleTempValue }

/-- A sample day/night forecast half. -/
def sampleDayNight : DayNightForecast :=
  { Icon := 1, IconPhrase := "Sunny", HasPrecipitation := false,
    PrecipitationType := none, PrecipitationIntensity := none }

/-- A sample daily min/max. -/
def sampleDailyTemp : DailyTemperature :=
  { Minimum := sampleTempValue, Maximum := sampleTempValue }

/-- A forecast day dated `d` (epoch milliseconds). -/
def sampleDay (d : Int) : DailyForecast :=
  { Date := d, EpochDate := d, Temperature := sampleDailyTemp,
    Day := sampleDayNight, Night := sampleDayNight }

/-- A sample current-conditions record. -/
def sampleWeather : CurrentWeather :=
  { LocalObservationDateTime := "2025-01-01T12:00:00+00:00"
    EpochTime := 1735732800
    WeatherText := "Sunny"
    WeatherIcon := 1
    HasPrecipitation := false
    PrecipitationType := none
    IsDayTime := true
    Temperature := sampleTemp
    RealFeelTemperature := sampleTemp
    RelativeHumidity := 50
    Wind := { Direction := { Degrees := 90, Localized := "E", English := "E" },
              Speed := { Metric := sampleTempValue, Imperial := sampleTempValue } }
    Pressure := { Metric := sampleTempValue, Imperial := sampleTempValue }
    UVIndex := 1
    UVIndexText := "Low"
    Visibility := { Metric := sampleTempValue, Imperial := sampleTempValue }
    CloudCover := 0 }

/-- A sample resolved location ("London", key 328328). -/
def sampleLocation : LocationSearchResult :=
  { Key := "328328"
    LocalizedName := "London"
    Country := { ID := "GB", LocalizedName := "United Kingdom" }
    AdministrativeArea := { ID := "LND", LocalizedName := "London" } }

/-- A sample forecast headline. -/
def sampleHeadline : HeadlineObj :=
  { EffectiveDate := "2025-01-01T07:00:00+00:00", EffectiveEpochDate := 1735714800,
    Severity := 4, Text := "Sunny", Category := "sun" }

/-- A raw 5-day forecast response (days dated 0..4 in days). -/
def sampleForecast5 : ForecastResponse :=
  { Headline := sampleHeadline
    DailyForecasts :=
      [sampleDay 0, sampleDay 86400000, sampleDay 172800000,
       sampleDay 259200000, sampleDay 345600000] }

-- ============================================
-- Closed form of the padding loop
-- ============================================

/-- The padding loop leaves a list alone when its length is outside the
loop guard. -/
theorem padForecast_of_guard_false (l : List DailyForecast)
    (h : ¬ (l.length < 5 ∧ 0 < l.length)) : padForecast l = l := by
  rw [padForecast]
  simp [h]

/-- Closed form of the padding loop: starting from a non-empty list of at
most five days whose last element is `last`, the loop appends clones of
`last` whose dates advance by one day per clone, until length five. -/
theorem padForecast_closed (k : Nat) :
    ∀ (l : List DailyForecast) (last : DailyForecast),
      l.getLast? = some last → 0 < l.length → 5 - l.length = k →
      padForecast l =
        l ++ (List.range k).map
          (fun i => { last with Date := last.Date + ((i : Int) + 1) * 86400000 }) := by
  induction k with
  | zero =>
      intro l last hl h1 hk
      rw [padForecast_of_guard_false l (by omega)]
      simp
  | succ k ih =>
      intro l last hl h1 hk
      have hne : l ≠ [] := List.ne_nil_of_length_pos h1
      have hlast : l.getLast hne = last := by
        have h2 : l.getLast? = some (l.getLast hne) := List.getLast?_eq_getLast l hne
        rw [h2] at hl
        exact Option.some_inj.mp hl
      have hlt : l.length < 5 := by omega
      rw [padForecast]
      rw [dif_pos ⟨hlt, h1⟩]
      have hgl : l.getLast (List.ne_nil_of_length_pos h1) = last := hlast
      rw [hgl]
      have hcat : (l ++ [cloneNextDay last]).getLast? = some (cloneNextDay last) :=
        List.getLast?_concat l
      have ih' := ih (l ++ [cloneNextDay last]) (cloneNextDay last) hcat
        (by simp) (by simp; omega)
      rw [ih']
      rw [List.append_assoc]
      congr 1
      rw [List.range_succ_eq_map]
      simp only [List.map_cons, List.map_map, List.singleton_append]
      congr 1
      apply List.map_congr_left
      intro a _
      simp only [Function.comp_apply, cloneNextDay]
      congr 1
      push_cast
      ring

/-- A raw sequence of at most one day is emptied by the slice and never
enters the padding loop. -/
theorem processForecast_short (days : List DailyForecast) (h : days.length ≤ 1) :
    processForecast days = [] := by
  unfold processForecast
  have hd : days.drop 1 = [] := List.drop_eq_nil_of_le h
  rw [hd]
  exact padForecast_of_guard_false [] (by simp)

/-- Closed form of the whole post-processing for raw sequences of length
two to five: the first day is dropped and the tail is completed to five
entries by date-advanced clones of the last raw day. -/
theorem processForecast_closed (days : List DailyForecast) (last : DailyForecast)
    (hl : days.getLast? = some last) (h2 : 2 ≤ days.length) (h5 : days.length ≤ 5) :
    processForecast days =
      days.drop 1 ++ (List.range (6 - days.length)).map
        (fun i => { last with Date := last.Date + ((i : Int) + 1) * 86400000 }) := by
  obtain ⟨a, b, t, rfl⟩ : ∃ a b t, days = a :: b :: t := by
    match days with
    | [] => simp at h2
    | [x] => simp at h2
    | a :: b :: t => exact ⟨a, b, t, rfl⟩
  have hl' : (b :: t).getLast? = some last := by
    rw [List.getLast?_cons_cons] at hl
    exact hl
  have hpad := padForecast_closed (5 - (b :: t).length) (b :: t) last hl' (by simp) rfl
  have hrange : 5 - (b :: t).length = 6 - (a :: b :: t).length := by
    simp only [List.length_cons]
    omega
  rw [hrange] at hpad
  simpa using hpad

/-- Claim C1 (amended): for raw sequences of length `n ≤ 5` the processed
forecast has length 0 when `n ≤ 1` (zero raw days, or a single day that
the drop-today slice removes) and exactly 5 when `2 ≤ n ≤ 5`; every padded
tail entry is a clone of the last raw day with its date advanced by one
calendar day per pad. -/
theorem claim_c1_forecast_shape (days : List DailyForecast) (h5 : days.length ≤ 5) :
    (processForecast days).length = (if days.length ≤ 1 then 0 else 5) ∧
    (∀ last, days.getLast? = some last → 2 ≤ days.length →
      processForecast days =
        days.drop 1 ++ (List.range (6 - days.length)).map
          (fun i => { last with Date := last.Date + ((i : Int) + 1) * 86400000 })) := by
  constructor
  · by_cases h1 : days.length ≤ 1
    · rw [processForecast_short days h1]
      simp [h1]
    · have h2 : 2 ≤ days.length := by omega
      have hne : days ≠ [] := by
        intro h
        rw [h] at h2
        simp at h2
      have hl : days.getLast? = some (days.getLast hne) :=
        List.getLast?_eq_getLast days hne
      rw [processForecast_closed days (days.getLast hne) hl h2 h5]
      rw [if_neg h1]
      simp only [List.length_append, List.length_drop, List.length_map,
        List.length_range]
      omega
  · intro last hl h2
    exact processForecast_closed days last hl h2 h5

/-- Claim C1 counterexample: a raw sequence of one day (n = 1, so n ≠ 0)
yields a processed forecast of length 0, not the claimed 5. -/
theorem claim_c1_counterexample :
    [sampleDay 0].length = 1 ∧ (processForecast [sampleDay 0]).length ≠ 5 := by
  refine ⟨rfl, ?_⟩
  rw [processForecast_short [sampleDay 0] (by simp)]
  simp

/-- Witness for claim C1: the amended statement applied to a concrete
two-day raw forecast. -/
theorem claim_c1_witness :
    ([sampleDay 0, sampleDay 86400000].length ≤ 5) ∧
    ((processForecast [sampleDay 0, sampleDay 86400000]).length =
        (if [sampleDay 0, sampleDay 86400000].length ≤ 1 then 0 else 5) ∧
      (∀ last, [sampleDay 0, sampleDay 86400000].getLast? = some last →
        2 ≤ [sampleDay 0, sampleDay 86400000].length →
        processForecast [sampleDay 0, sampleDay 86400000] =
          [sampleDay 0, sampleDay 86400000].drop 1 ++
            (List.range (6 - [sampleDay 0, sampleDay 86400000].length)).map
              (fun i => { last with Date := last.Date + ((i : Int) + 1) * 86400000 }))) :=
  ⟨by simp, claim_c1_forecast_shape [sampleDay 0, sampleDay 86400000] (by simp)⟩

-- ============================================
-- Pipeline characterization lemmas
-- ============================================

/-- A settled query holding data was enabled, its fetch succeeded with
exactly that data, and it reports no error. -/
theorem runQuery_data_some {α : Type} {e : Bool} {f : Except String α} {a : α}
    (h : (runQuery e f).data = some a) :
    e = true ∧ f = Except.ok a ∧ runQuery e f = ⟨some a, false, none⟩ := by
  unfold runQuery at h ⊢
  cases e with
  | false => simp at h
  | true =>
      cases f with
      | ok b =>
          simp at h
          subst h
          exact ⟨rfl, rfl, rfl⟩
      | error e => simp at h

/-- A resolved location key is non-empty and comes from a successful
search query carrying exactly that key. -/
theorem resolvedLocationKey_spec {city : String} {p : Provider} {k : String}
    (h : resolvedLocationKey city p = some k) :
    k ≠ "" ∧ locationQueryOf city p = ⟨some (some k), false, none⟩ := by
  unfold resolvedLocationKey at h
  cases hd : (locationQueryOf city p).data with
  | none => rw [hd] at h; simp at h
  | some o =>
      cases o with
      | none => rw [hd] at h; simp at h
      | some s =>
          rw [hd] at h
          by_cases hs : s = ""
          · simp [hs] at h
          · simp [hs] at h
            subst h
            have := runQuery_data_some (f := fetchLocationKey city p.search)
              (e := (jsTrim city ≠ "" : Bool)) (by exact hd)
            exact ⟨hs, this.2.2⟩

/-- The combined hook on a run whose search resolved key `k`: every
dependent query is enabled with argument `k`, the error aggregation sees
only the conditions and forecast fetches, and each data slot reflects its
own fetch alone. -/
theorem useWeatherByCity_resolved (city : String) (p : Provider) (k : String)
    (hk : resolvedLocationKey city p = some k) :
    useWeatherByCity city p =
      { weather :=
          match fetchWeather k p.current with
          | .ok ws => ws.head?
          | .error _ => none
        forecast :=
          match fetchForecast k p.forecast with
          | .ok fr => processForecast fr.DailyForecasts
          | .error _ => []
        locationKey := some k
        localizedCityName :=
          match fetchLocationByKey k p.byKey with
          | .ok loc => jsStrOrNull (some loc.LocalizedName)
          | .error _ => none
        isError :=
          (errOf (fetchWeather k p.current)).isSome ||
            (errOf (fetchForecast k p.forecast)).isSome
        error :=
          jsOrElse (errOf (fetchWeather k p.current))
            (errOf (fetchForecast k p.forecast)) } := by
  obtain ⟨hne, hlq⟩ := resolvedLocationKey_spec hk
  unfold useWeatherByCity locationInfoEnabled currentWeatherEnabled forecastEnabled
  rw [hk, hlq]
  cases hw : fetchWeather k p.current <;>
    cases hf : fetchForecast k p.forecast <;>
      cases hb : fetchLocationByKey k p.byKey <;>
        simp [runQuery, jsOrElse, jsStrOrNull, errOf, hw, hf, hb]

-- ============================================
-- Concrete providers for witnesses and counterexamples
-- ============================================

/-- A provider run where the search matches nothing and nothing else is
reachable. -/
def notFoundProvider : Provider :=
  { search := .ok [], byKey := .fail, current := .fail, forecast := .fail }

/-- A provider run where only the localized-name lookup fails. -/
def byKeyFailProvider : Provider :=
  { search := .ok [sampleLocation], byKey := .fail,
    current := .ok [sampleWeather], forecast := .ok sampleForecast5 }

/-- A provider run where only the current-conditions fetch fails. -/
def conditionsFailProvider : Provider :=
  { search := .ok [sampleLocation], byKey := .ok sampleLocation,
    current := .fail, forecast := .ok sampleForecast5 }

/-- A provider run where the conditions fetch succeeds with an empty
array. -/
def emptyConditionsProvider : Provider :=
  { search := .ok [sampleLocation], byKey := .ok sampleLocation,
    current := .ok [], forecast := .ok sampleForecast5 }

-- ============================================
-- Claim C2
-- ============================================

/-- Claim C2 (amended): when the search has resolved a key and the
current-conditions or forecast fetch fails, the pipeline is in the error
state and carries the first failure in the fixed aggregation order
conditions-then-forecast; a failure of the localized-name lookup
(`resolveByKey`) does not put the pipeline in the error state. -/
theorem claim_c2_error_aggregation (city : String) (p : Provider) (k : String)
    (hk : resolvedLocationKey city p = some k)
    (hfail : (errOf (fetchWeather k p.current)).isSome = true ∨
      (errOf (fetchForecast k p.forecast)).isSome = true) :
    (useWeatherByCity city p).isError = true ∧
    (useWeatherByCity city p).error =
      jsOrElse (errOf (fetchWeather k p.current))
        (errOf (fetchForecast k p.forecast)) := by
  rw [useWeatherByCity_resolved city p k hk]
  rcases hfail with h | h <;> simp [h]

/-- Claim C2 counterexample: the localized-name lookup (one of the three
dispatched operations) fails on this run, yet the pipeline's state is not
error and it carries no error. -/
theorem claim_c2_counterexample :
    byKeyFailProvider.byKey = Transport.fail ∧
    locationInfoEnabled "London" byKeyFailProvider = true ∧
    (useWeatherByCity "London" byKeyFailProvider).isError = false ∧
    (useWeatherByCity "London" byKeyFailProvider).error = none := by
  refine ⟨rfl, ?_, ?_, ?_⟩ <;> decide

/-- Witness for claim C2: the amended statement applied to a run whose
conditions fetch fails. -/
theorem claim_c2_witness :
    (resolvedLocationKey "London" conditionsFailProvider = some "328328" ∧
      ((errOf (fetchWeather "328328" conditionsFailProvider.current)).isSome = true ∨
        (errOf (fetchForecast "328328" conditionsFailProvider.forecast)).isSome = true)) ∧
    ((useWeatherByCity "London" conditionsFailProvider).isError = true ∧
      (useWeatherByCity "London" conditionsFailProvider).error =
        jsOrElse (errOf (fetchWeather "328328" conditionsFailProvider.current))
          (errOf (fetchForecast "328328" conditionsFailProvider.forecast))) :=
  ⟨⟨by decide, Or.inl (by decide)⟩,
    claim_c2_error_aggregation "London" conditionsFailProvider "328328" (by decide)
      (Or.inl (by decide))⟩

-- ============================================
-- Claim C3
-- ============================================

/-- Claim C3 (amended): partial successes are not discarded from the
hook's externally visible result.  On every run with a resolved key the
pipeline is in the error state exactly when the conditions or the
forecast transport fails, and each data slot reflects its own query
alone: a failed query's slot is empty (null weather, empty forecast),
while a succeeded query's data — the weather snapshot or the processed
forecast — stays visible in the result whatever the sibling did, in
particular in error-state runs. -/
theorem claim_c3_partial_data_visible (city : String) (p : Provider) (k : String)
    (hk : resolvedLocationKey city p = some k) :
    (useWeatherByCity city p).isError =
      (decide (p.current = Transport.fail) || decide (p.forecast = Transport.fail)) ∧
    (∀ ws, p.current = Transport.ok ws →
      (useWeatherByCity city p).weather = ws.head?) ∧
    (p.current = Transport.fail → (useWeatherByCity city p).weather = none) ∧
    (∀ fr, p.forecast = Transport.ok fr →
      (useWeatherByCity city p).forecast = processForecast fr.DailyForecasts) ∧
    (p.forecast = Transport.fail → (useWeatherByCity city p).forecast = []) := by
  have hne : k ≠ "" := (resolvedLocationKey_spec hk).1
  rw [useWeatherByCity_resolved city p k hk]
  refine ⟨?_, ?_, ?_, ?_, ?_⟩
  · cases hw : p.current <;> cases hf : p.forecast <;>
      simp [fetchWeather, fetchForecast, errOf, hne]
  · intro ws hw
    simp [fetchWeather, hw, hne]
  · intro hw
    simp [fetchWeather, hw, hne]
  · intro fr hf
    simp [fetchForecast, hf, hne]
  · intro hf
    simp [fetchForecast, hf, hne]

/-- Claim C3 counterexample: a run whose conditions fetch fails while
the forecast succeeds is in the error state, yet the result still
carries the five processed forecast entries. -/
theorem claim_c3_counterexample :
    (useWeatherByCity "London" conditionsFailProvider).isError = true ∧
    (useWeatherByCity "London" conditionsFailProvider).forecast ≠ [] := by
  constructor
  · decide
  · have hres := useWeatherByCity_resolved "London" conditionsFailProvider "328328"
      (by decide)
    rw [hres]
    have hfc : fetchForecast "328328" conditionsFailProvider.forecast =
        Except.ok sampleForecast5 := by
      simp [fetchForecast, conditionsFailProvider]
    simp only [hfc]
    rw [processForecast_closed sampleForecast5.DailyForecasts (sampleDay 345600000)
      (by decide) (by decide) (by decide)]
    simp [sampleForecast5]

/-- A provider run where only the forecast fetch fails: the pipeline is
in the error state while the conditions fetch succeeded. -/
def forecastFailProvider : Provider :=
  { search := .ok [sampleLocation], byKey := .ok sampleLocation,
    current := .ok [sampleWeather], forecast := .fail }

/-- Witness for claim C3: the amended statement applied to an
error-state run (forecast failed) whose conditions fetch succeeded, so
the snapshot-stays-visible and failed-slot-empty clauses are both
exercised non-vacuously. -/
theorem claim_c3_witness :
    (resolvedLocationKey "London" forecastFailProvider = some "328328") ∧
    ((useWeatherByCity "London" forecastFailProvider).isError =
        (decide (forecastFailProvider.current = Transport.fail) ||
          decide (forecastFailProvider.forecast = Transport.fail)) ∧
      (∀ ws, forecastFailProvider.current = Transport.ok ws →
        (useWeatherByCity "London" forecastFailProvider).weather = ws.head?) ∧
      (forecastFailProvider.current = Transport.fail →
        (useWeatherByCity "London" forecastFailProvider).weather = none) ∧
      (∀ fr, forecastFailProvider.forecast = Transport.ok fr →
        (useWeatherByCity "London" forecastFailProvider).forecast =
          processForecast fr.DailyForecasts) ∧
      (forecastFailProvider.forecast = Transport.fail →
        (useWeatherByCity "London" forecastFailProvider).forecast = [])) :=
  ⟨by decide,
    claim_c3_partial_data_visible "London" forecastFailProvider "328328" (by decide)⟩

-- ============================================
-- Claim C6
-- ============================================

/-- Claim C6: a well-formed query for which the provider returns zero
matches ends with no weather, no forecast, no error, no resolved key,
and the conditions and forecast queries never dispatched. -/
theorem claim_c6_not_found (city : String) (p : Provider)
    (hcity : jsTrim city ≠ "") (hzero : p.search = Transport.ok []) :
    (useWeatherByCity city p).weather = none ∧
    (useWeatherByCity city p).forecast = [] ∧
    (useWeatherByCity city p).isError = false ∧
    (useWeatherByCity city p).error = none ∧
    (useWeatherByCity city p).locationKey = none ∧
    currentWeatherEnabled city p = false ∧
    forecastEnabled city p = false := by
  have hfetch : fetchLocationKey city p.search = Except.ok none := by
    unfold fetchLocationKey
    rw [if_neg hcity, hzero]
    rfl
  have hlq : locationQueryOf city p = ⟨some none, false, none⟩ := by
    unfold locationQueryOf
    rw [hfetch]
    simp [runQuery, hcity]
  have hres : resolvedLocationKey city p = none := by
    unfold resolvedLocationKey
    rw [hlq]
  unfold useWeatherByCity currentWeatherEnabled forecastEnabled locationInfoEnabled
  rw [hres, hlq]
  simp [runQuery, jsOrElse]

/-- Witness for claim C6: the not-found statement applied to the
scenario-B query against a provider with zero matches. -/
theorem claim_c6_witness :
    (jsTrim "Zzzznotacity" ≠ "" ∧ notFoundProvider.search = Transport.ok []) ∧
    ((useWeatherByCity "Zzzznotacity" notFoundProvider).weather = none ∧
      (useWeatherByCity "Zzzznotacity" notFoundProvider).forecast = [] ∧
      (useWeatherByCity "Zzzznotacity" notFoundProvider).isError = false ∧
      (useWeatherByCity "Zzzznotacity" notFoundProvider).error = none ∧
      (useWeatherByCity "Zzzznotacity" notFoundProvider).locationKey = none ∧
      currentWeatherEnabled "Zzzznotacity" notFoundProvider = false ∧
      forecastEnabled "Zzzznotacity" notFoundProvider = false) :=
  ⟨⟨by decide, rfl⟩,
    claim_c6_not_found "Zzzznotacity" notFoundProvider (by decide) rfl⟩

-- ============================================
-- Claim C10
-- ============================================

/-- Claim C10 (amended): when the conditions fetch succeeds with an
empty array (and the forecast fetch does not fail), the result exposes
weather = null with no error — matching the notFound state in the
weather, isError and error fields — but it remains externally
distinguishable from notFound through its non-null location key. -/
theorem claim_c10_empty_conditions (city : String) (p : Provider) (k : String)
    (fr : ForecastResponse)
    (hk : resolvedLocationKey city p = some k)
    (hw : p.current = Transport.ok [])
    (hf : p.forecast = Transport.ok fr) :
    (useWeatherByCity city p).weather = none ∧
    (useWeatherByCity city p).isError = false ∧
    (useWeatherByCity city p).error = none ∧
    (useWeatherByCity city p).locationKey = some k := by
  have hne : k ≠ "" := (resolvedLocationKey_spec hk).1
  rw [useWeatherByCity_resolved city p k hk]
  simp [fetchWeather, fetchForecast, hw, hf, hne, errOf, jsOrElse]

/-- Claim C10 counterexample: the empty-conditions run shows
weather = null with no error, but its result differs from a notFound
run's result — the location key field distinguishes the two states. -/
theorem claim_c10_counterexample :
    (useWeatherByCity "London" emptyConditionsProvider).weather = none ∧
    (useWeatherByCity "London" emptyConditionsProvider).isError = false ∧
    (useWeatherByCity "London" emptyConditionsProvider).error = none ∧
    (useWeatherByCity "London" emptyConditionsProvider).locationKey = some "328328" ∧
    (useWeatherByCity "Zzzznotacity" notFoundProvider).locationKey = none ∧
    useWeatherByCity "London" emptyConditionsProvider ≠
      useWeatherByCity "Zzzznotacity" notFoundProvider := by
  refine ⟨by decide, by decide, by decide, by decide, by decide, ?_⟩
  intro heq
  have h := congrArg WeatherByCityResult.locationKey heq
  have hne : (useWeatherByCity "London" emptyConditionsProvider).locationKey ≠
      (useWeatherByCity "Zzzznotacity" notFoundProvider).locationKey := by decide
  exact hne h

/-- Witness for claim C10: the amended statement applied to the concrete
empty-conditions run. -/
theorem claim_c10_witness :
    (resolvedLocationKey "London" emptyConditionsProvider = some "328328" ∧
      emptyConditionsProvider.current = Transport.ok [] ∧
      emptyConditionsProvider.forecast = Transport.ok sampleForecast5) ∧
    ((useWeatherByCity "London" emptyConditionsProvider).weather = none ∧
      (useWeatherByCity "London" emptyConditionsProvider).isError = false ∧
      (useWeatherByCity "London" emptyConditionsProvider).error = none ∧
      (useWeatherByCity "London" emptyConditionsProvider).locationKey = some "328328") :=
  ⟨⟨by decide, rfl, rfl⟩,
    claim_c10_empty_conditions "London" emptyConditionsProvider "328328"
      sampleForecast5 (by decide) rfl rfl⟩

-- ============================================
-- Claim C4
-- ============================================

/-- A fresh provider state: nothing viewed, nothing stored, no writes. -/
def initialAppState : AppState :=
  { favorites := [], lastViewedCity := none, lastCityStored := none,
    lastCityWrites := 0 }

/-- Claim C4 (amended): a repeated `setLastViewedCity` with the same
identifier and name is idempotent on state — the in-memory slot, the
durable stored value and the favorites list are exactly those after the
first call — but each call with non-empty arguments performs its own
`setItem` write; the once-per-new-identifier discipline is the caller's
contract, not enforced inside the store. -/
theorem claim_c4_repeat_set_last_viewed (s : AppState) (k n : String) :
    (setLastViewedCity k n (setLastViewedCity k n s)).lastViewedCity =
      (setLastViewedCity k n s).lastViewedCity ∧
    (setLastViewedCity k n (setLastViewedCity k n s)).lastCityStored =
      (setLastViewedCity k n s).lastCityStored ∧
    (setLastViewedCity k n (setLastViewedCity k n s)).favorites =
      (setLastViewedCity k n s).favorites ∧
    (setLastViewedCity k n (setLastViewedCity k n s)).lastCityWrites =
      (setLastViewedCity k n s).lastCityWrites +
        (if k = "" ∨ n = "" then 0 else 1) := by
  by_cases h : k = "" ∨ n = ""
  · simp [setLastViewedCity, h]
  · simp [setLastViewedCity, h]

/-- Claim C4 counterexample: two consecutive identical calls perform two
distinct durable-store writes, not at most one. -/
theorem claim_c4_counterexample :
    (setLastViewedCity "328328" "London"
      (setLastViewedCity "328328" "London" initialAppState)).lastCityWrites = 2 ∧
    (setLastViewedCity "328328" "London" initialAppState).lastCityWrites = 1 := by
  constructor <;> decide

-- ============================================
-- Claim C5
-- ============================================

/-- Modelled from the spec's words, for comparison with the code: an
aggregate in which one city's failure "is caught and mapped to a
per-city null result". -/
def specNullMappedAggregate (favorites : List FavoriteCity)
    (byKeyOutcomes : String → Transport LocationSearchResult) :
    List (Option FavoriteLocationResult) :=
  favorites.map (fun fav =>
    match fetchLocationByKey fav.locationKey (byKeyOutcomes fav.locationKey) with
    | .ok locationData =>
        some { locationKey := fav.locationKey
               localizedName := locationData.LocalizedName
               defaultName := fav.defaultName }
    | .error _ => none)

/-- Two favorite cities for the aggregation scenarios. -/
def twoFavorites : List FavoriteCity :=
  [{ locationKey := "111", defaultName := "Paris" },
   { locationKey := "328328", defaultName := "London" }]

/-- Per-key transport outcomes where only key 111 fails. -/
def firstKeyFails (k : String) : Transport LocationSearchResult :=
  if k = "111" then .fail else .ok sampleLocation

/-- Claim C5 (amended): a failing city's entry in the aggregate is not a
null placeholder but a fallback record whose localized name is the stored
default name; the aggregate still succeeds, keeps one entry per favorite
in order, and every other city's entry depends only on its own fetch. -/
theorem claim_c5_per_city_fallback (favorites : List FavoriteCity)
    (byKeyOutcomes : String → Transport LocationSearchResult)
    (i : Nat) (fav : FavoriteCity)
    (hi : favorites[i]? = some fav)
    (hfail : byKeyOutcomes fav.locationKey = Transport.fail ∨ fav.locationKey = "") :
    (useFavoriteLocations favorites byKeyOutcomes).locations[i]? =
      some { locationKey := fav.locationKey, localizedName := fav.defaultName,
             defaultName := fav.defaultName } ∧
    (useFavoriteLocations favorites byKeyOutcomes).isError = false ∧
    (useFavoriteLocations favorites byKeyOutcomes).locations.length =
      favorites.length ∧
    (∀ (j : Nat) favj, favorites[j]? = some favj →
      (useFavoriteLocations favorites byKeyOutcomes).locations[j]? =
        some (favoriteLocationEntry byKeyOutcomes favj)) := by
  have hpos : 0 < favorites.length := by
    by_contra hc
    push_neg at hc
    have hnil : favorites = [] := List.eq_nil_of_length_eq_zero (by omega)
    rw [hnil] at hi
    simp at hi
  have hloc : (useFavoriteLocations favorites byKeyOutcomes).locations =
      favorites.map (favoriteLocationEntry byKeyOutcomes) := by
    unfold useFavoriteLocations
    simp [runQuery, hpos]
  have hisE : (useFavoriteLocations favorites byKeyOutcomes).isError = false := by
    unfold useFavoriteLocations
    simp [runQuery, hpos]
  refine ⟨?_, hisE, ?_, ?_⟩
  · rw [hloc, List.getElem?_map, hi]
    have hentry : favoriteLocationEntry byKeyOutcomes fav =
        { locationKey := fav.locationKey, localizedName := fav.defaultName,
          defaultName := fav.defaultName } := by
      unfold favoriteLocationEntry
      rcases hfail with h | h
      · unfold fetchLocationByKey
        rw [h]
        by_cases hk : fav.locationKey = "" <;> simp [hk]
      · simp [fetchLocationByKey, h]
    simp [hentry]
  · rw [hloc]
    simp
  · intro j favj hj
    rw [hloc, List.getElem?_map, hj]
    simp

/-- Claim C5 counterexample: on a concrete run where the first city's
lookup fails, the aggregate holds a fallback record (default name used as
localized name) at that city's position, where the spec's null-mapping
account requires a null placeholder. -/
theorem claim_c5_counterexample :
    (useFavoriteLocations twoFavorites firstKeyFails).locations[0]? =
      some { locationKey := "111", localizedName := "Paris",
             defaultName := "Paris" } ∧
    (specNullMappedAggregate twoFavorites firstKeyFails)[0]? = some none ∧
    (useFavoriteLocations twoFavorites firstKeyFails).isError = false := by
  refine ⟨by decide, by decide, by decide⟩

/-- Witness for claim C5: the amended statement applied to the concrete
two-favorite run whose first lookup fails. -/
theorem claim_c5_witness :
    (twoFavorites[0]? = some { locationKey := "111", defaultName := "Paris" } ∧
      (firstKeyFails "111" = Transport.fail ∨ ("111" : String) = "")) ∧
    ((useFavoriteLocations twoFavorites firstKeyFails).locations[0]? =
        some { locationKey := "111", localizedName := "Paris",
               defaultName := "Paris" } ∧
      (useFavoriteLocations twoFavorites firstKeyFails).isError = false ∧
      (useFavoriteLocations twoFavorites firstKeyFails).locations.length =
        twoFavorites.length ∧
      (∀ (j : Nat) favj, twoFavorites[j]? = some favj →
        (useFavoriteLocations twoFavorites firstKeyFails).locations[j]? =
          some (favoriteLocationEntry firstKeyFails favj))) :=
  ⟨⟨by decide, Or.inl (by decide)⟩,
    claim_c5_per_city_fallback twoFavorites firstKeyFails 0
      { locationKey := "111", defaultName := "Paris" } (by decide)
      (Or.inl (by decide))⟩

-- ============================================
-- Claim C7
-- ============================================

/-- In a list whose keys are pairwise distinct, a key that occurs occurs
in exactly one entry. -/
theorem countP_key_eq_one_of_mem (s : List FavoriteCity) (id : String)
    (hnodup : (s.map FavoriteCity.locationKey).Nodup)
    (hmem : s.any (fun c => c.locationKey = id) = true) :
    s.countP (fun c => c.locationKey = id) = 1 := by
  induction s with
  | nil => simp at hmem
  | cons a t ih =>
      simp only [List.map_cons, List.nodup_cons] at hnodup
      rw [List.countP_cons]
      by_cases h : a.locationKey = id
      · have hz : List.countP (fun c => decide (c.locationKey = id)) t = 0 := by
          rw [List.countP_eq_zero]
          intro c hc
          simp only [decide_eq_true_eq]
          intro hcid
          refine hnodup.1 ?_
          rw [h, ← hcid]
          exact List.mem_map_of_mem FavoriteCity.locationKey hc
        rw [hz]
        simp [h]
      · have hmem' : t.any (fun c => c.locationKey = id) = true := by
          rcases List.any_eq_true.mp hmem with ⟨c, hc, hcp⟩
          rcases List.mem_cons.mp hc with rfl | hct
          · simp only [decide_eq_true_eq] at hcp
            exact absurd hcp h
          · exact List.any_eq_true.mpr ⟨c, hct, hcp⟩
        rw [ih hnodup.2 hmem']
        simp [h]

/-- Claim C7 (amended): for non-empty id and names, over a state with
pairwise-distinct keys, `add(id, name); add(id, name2)` leaves exactly
one entry for `id` — appended with `name` when `id` was absent, or the
pre-existing entry unchanged when it was present — and leaves every other
entry and their order untouched. -/
theorem claim_c7_add_idempotent (s : List FavoriteCity) (id name name2 : String)
    (hid : id ≠ "") (hn : name ≠ "") (hn2 : name2 ≠ "")
    (hnodup : (s.map FavoriteCity.locationKey).Nodup) :
    ((addFavorite id name2 (addFavorite id name s)).countP
        (fun c => c.locationKey = id)) = 1 ∧
    (s.any (fun c => c.locationKey = id) = false →
      addFavorite id name2 (addFavorite id name s) =
        s ++ [{ locationKey := id, defaultName := name }]) ∧
    (s.any (fun c => c.locationKey = id) = true →
      addFavorite id name2 (addFavorite id name s) = s) := by
  by_cases hmem : s.any (fun c => c.locationKey = id) = true
  · have h1 : addFavorite id name s = s := by
      unfold addFavorite
      rw [if_neg (by simp [hid, hn]), if_pos (by simpa using hmem)]
    have h2 : addFavorite id name2 s = s := by
      unfold addFavorite
      rw [if_neg (by simp [hid, hn2]), if_pos (by simpa using hmem)]
    rw [h1, h2]
    exact ⟨countP_key_eq_one_of_mem s id hnodup hmem, by simp [hmem], fun _ => rfl⟩
  · have hmem' : s.any (fun c => c.locationKey = id) = false := by
      simpa using hmem
    have h1 : addFavorite id name s =
        s ++ [{ locationKey := id, defaultName := name }] := by
      unfold addFavorite
      rw [if_neg (by simp [hid, hn]), if_neg (by simp [hmem'])]
    have h2 : addFavorite id name2
        (s ++ [{ locationKey := id, defaultName := name }]) =
        s ++ [{ locationKey := id, defaultName := name }] := by
      unfold addFavorite
      rw [if_neg (by simp [hid, hn2]), if_pos (by simp)]
    rw [h1, h2]
    refine ⟨?_, fun _ => rfl, fun hc => by rw [hmem'] at hc; simp at hc⟩
    rw [List.countP_append]
    have hz : s.countP (fun c => c.locationKey = id) = 0 := by
      rw [List.countP_eq_zero]
      intro c hc
      simp only [decide_eq_true_eq]
      intro hcid
      have hany : s.any (fun c => c.locationKey = id) = true :=
        List.any_eq_true.mpr ⟨c, hc, by simp [hcid]⟩
      rw [hmem'] at hany
      exact Bool.false_ne_true hany
    rw [hz]
    simp

/-- Claim C7 counterexample: with the empty identifier (a value the
guard rejects), the double add leaves zero entries for that id, not
exactly one. -/
theorem claim_c7_counterexample :
    addFavorite "" "b" (addFavorite "" "a" []) = [] ∧
    ((addFavorite "" "b" (addFavorite "" "a" [])).countP
      (fun c => c.locationKey = "")) ≠ 1 := by
  constructor <;> decide

/-- Witness for claim C7: the amended statement applied to a concrete
one-entry state and a fresh id. -/
theorem claim_c7_witness :
    (("328328" : String) ≠ "" ∧ ("London" : String) ≠ "" ∧
      ("Londres" : String) ≠ "" ∧
      (([{ locationKey := "1", defaultName := "A" }] :
        List FavoriteCity).map FavoriteCity.locationKey).Nodup) ∧
    (((addFavorite "328328" "Londres"
        (addFavorite "328328" "London"
          [{ locationKey := "1", defaultName := "A" }])).countP
          (fun c => c.locationKey = "328328")) = 1 ∧
      (([{ locationKey := "1", defaultName := "A" }] : List FavoriteCity).any
          (fun c => c.locationKey = "328328") = false →
        addFavorite "328328" "Londres"
          (addFavorite "328328" "London"
            [{ locationKey := "1", defaultName := "A" }]) =
          [{ locationKey := "1", defaultName := "A" }] ++
            [{ locationKey := "328328", defaultName := "London" }]) ∧
      (([{ locationKey := "1", defaultName := "A" }] : List FavoriteCity).any
          (fun c => c.locationKey = "328328") = true →
        addFavorite "328328" "Londres"
          (addFavorite "328328" "London"
            [{ locationKey := "1", defaultName := "A" }]) =
          [{ locationKey := "1", defaultName := "A" }])) :=
  ⟨⟨by decide, by decide, by decide, by decide⟩,
    claim_c7_add_idempotent [{ locationKey := "1", defaultName := "A" }]
      "328328" "London" "Londres" (by decide) (by decide) (by decide) (by decide)⟩

-- ============================================
-- Claim C8
-- ============================================

/-- `getItem` after `removeItem`: the removed key reads as absent, every
other key is untouched. -/
theorem getItem_removeItem (st : Storage) (k kr : String) :
    getItem (removeItem st kr) k = if k = kr then none else getItem st k := by
  induction st with
  | nil =>
      unfold getItem removeItem
      simp only [List.filter_nil, List.find?_nil, Option.map_none']
      split <;> rfl
  | cons e t ih =>
      unfold getItem removeItem at ih ⊢
      rcases e with ⟨ek, ev⟩
      by_cases he : ek = kr <;> by_cases hek : ek = k <;>
        simp only [List.filter_cons, he, hek, decide_not, decide_eq_true_eq,
          if_pos, if_neg, List.find?_cons] <;>
        simp_all [List.find?_cons]

/-- The legacy cleanup never disturbs the v2 favorites key. -/
theorem getItem_legacyCleanup_v2 (st : Storage) :
    getItem (legacyCleanup st) STORAGE_KEY = getItem st STORAGE_KEY := by
  unfold legacyCleanup
  split
  · rw [getItem_removeItem, if_neg (by decide), getItem_removeItem,
      if_neg (by decide)]
  · rfl

/-- After the legacy cleanup the legacy favorites key never reads
truthy: a truthy value was deleted, anything else was not truthy. -/
theorem legacyCleanup_old_not_truthy (st : Storage) :
    storedTruthy (getItem (legacyCleanup st) OLD_STORAGE_KEY) = false := by
  unfold legacyCleanup
  by_cases h : storedTruthy (getItem st OLD_STORAGE_KEY) = true
  · rw [if_pos h, getItem_removeItem, if_neg (by decide), getItem_removeItem,
      if_pos rfl]
    rfl
  · rw [if_neg h]
    simpa using h

/-- Claim C8: loading favorites never fails: for every storage content
the loaded list is exactly the entries of a stored v2 array that
validate as favorite-city records (and empty for absent, empty-string,
unparsable or non-array data), and after loading the legacy key never
reads as present. -/
theorem claim_c8_load_robust (st : Storage) :
    (loadFavoritesFromStorage st).1 =
      (match getItem st STORAGE_KEY with
        | some (.val (.arr items)) => items.filterMap toFavoriteCity
        | _ => []) ∧
    storedTruthy (getItem (loadFavoritesFromStorage st).2 OLD_STORAGE_KEY) = false := by
  constructor
  · unfold loadFavoritesFromStorage
    rw [getItem_legacyCleanup_v2]
    cases hst : getItem st STORAGE_KEY with
    | none => rfl
    | some sv =>
        cases sv with
        | empty => rfl
        | malformed => rfl
        | val j => cases j <;> rfl
  · unfold loadFavoritesFromStorage
    cases hst : getItem (legacyCleanup st) STORAGE_KEY with
    | none => exact legacyCleanup_old_not_truthy st
    | some sv =>
        cases sv with
        | empty => exact legacyCleanup_old_not_truthy st
        | malformed => exact legacyCleanup_old_not_truthy st
        | val j => cases j <;> exact legacyCleanup_old_not_truthy st

-- ============================================
-- Claim C9
-- ============================================

/-- Claim C9: over states with pairwise-distinct keys, `addFavorite` and
`removeFavorite` preserve distinctness, a call with an empty key or an
empty name is a no-op, and every entry an add produces either was
already present or has non-empty key and name. -/
theorem claim_c9_invariants (s : List FavoriteCity)
    (hnodup : (s.map FavoriteCity.locationKey).Nodup) (k n k2 : String) :
    ((addFavorite k n s).map FavoriteCity.locationKey).Nodup ∧
    ((removeFavorite k2 s).map FavoriteCity.locationKey).Nodup ∧
    (k = "" ∨ n = "" → addFavorite k n s = s) ∧
    (∀ c ∈ addFavorite k n s, c ∈ s ∨ (c.locationKey ≠ "" ∧ c.defaultName ≠ "")) := by
  refine ⟨?_, ?_, ?_, ?_⟩
  · unfold addFavorite
    by_cases hg : k = "" ∨ n = ""
    · rw [if_pos hg]
      exact hnodup
    · rw [if_neg hg]
      by_cases hmem : s.any (fun f => f.locationKey = k) = true
      · rw [if_pos (by simpa using hmem)]
        exact hnodup
      · rw [if_neg (by simpa using hmem)]
        rw [List.map_append, List.nodup_append]
        refine ⟨hnodup, by simp, ?_⟩
        intro a ha hb
        simp only [List.map_cons, List.map_nil, List.mem_singleton] at hb
        rcases List.mem_map.mp ha with ⟨c, hc, hck⟩
        have hany : s.any (fun f => f.locationKey = k) = true :=
          List.any_eq_true.mpr ⟨c, hc, by simp [hck.trans hb]⟩
        exact hmem hany
  · unfold removeFavorite
    by_cases hg : k2 = ""
    · rw [if_pos hg]
      exact hnodup
    · rw [if_neg hg]
      exact List.Nodup.sublist
        (List.Sublist.map FavoriteCity.locationKey (List.filter_sublist s)) hnodup
  · intro hg
    unfold addFavorite
    rw [if_pos hg]
  · intro c hc
    unfold addFavorite at hc
    by_cases hg : k = "" ∨ n = ""
    · rw [if_pos hg] at hc
      exact Or.inl hc
    · rw [if_neg hg] at hc
      by_cases hmem : s.any (fun f => f.locationKey = k) = true
      · rw [if_pos (by simpa using hmem)] at hc
        exact Or.inl hc
      · rw [if_neg (by simpa using hmem)] at hc
        rcases List.mem_append.mp hc with hcs | hcn
        · exact Or.inl hcs
        · right
          rcases List.mem_singleton.mp hcn with rfl
          push_neg at hg
          exact ⟨hg.1, hg.2⟩

/-- Witness for claim C9: the invariants applied to a concrete
one-entry distinct-key state. -/
theorem claim_c9_witness :
    ((([{ locationKey := "1", defaultName := "A" }] :
        List FavoriteCity).map FavoriteCity.locationKey).Nodup) ∧
    (((addFavorite "2" "B" [{ locationKey := "1", defaultName := "A" }]).map
        FavoriteCity.locationKey).Nodup ∧
      ((removeFavorite "1" [{ locationKey := "1", defaultName := "A" }]).map
        FavoriteCity.locationKey).Nodup ∧
      (("2" : String) = "" ∨ ("B" : String) = "" →
        addFavorite "2" "B" [{ locationKey := "1", defaultName := "A" }] =
          [{ locationKey := "1", defaultName := "A" }]) ∧
      (∀ c ∈ addFavorite "2" "B" [{ locationKey := "1", defaultName := "A" }],
        c ∈ ([{ locationKey := "1", defaultName := "A" }] : List FavoriteCity) ∨
          (c.locationKey ≠ "" ∧ c.defaultName ≠ ""))) :=
  ⟨by decide,
    claim_c9_invariants [{ locationKey := "1", defaultName := "A" }]
      (by decide) "2" "B" "1"⟩
